import Mathlib

/-!
# Konstel conversational graph-mutation pipeline — shallow embedding

Shallow embedding of the agent logic of the Konstel backend
(`backend/agents/conversation_agent.py`, `backend/agents/goal_refinement_agent.py`,
`backend/llm_client.py`, `backend/models/data_models.py`) together with proofs of
the testable properties the spec states about it.

Modelling conventions:
* Python floats appearing in the agent logic (impact scores, weights, confidence)
  are modelled as `Rat`; the literals involved (0.1, 0.5, 0.7) are exact in both.
* Python `str` is modelled as `String`; `str.lower` is modelled for the ASCII
  titles the pipeline handles by mapping `Char.toLower`.
* JSON values (the untyped payloads flowing out of `json.loads` and into pydantic
  constructors) are the inductive `Json` below.
* Fallible Python code is embedded in `Except PyErr`; an uncaught exception is an
  `.error` result, a `try/except` is a `match` on the embedded try-body.
* The LLM transport is an oracle: a stream `Nat → outcome` giving the outcome of
  the n-th network attempt, so that "no retry" is expressible as the result
  depending only on attempt 0.
-/

/-- Exceptions that the embedded Python code can raise. -/
inductive PyErr where
  | validationError
  | jsonDecodeError
  | typeError
  | keyError
  | indexError
  | httpxTimeout
  | httpxConnect
  | httpxStatus (code : Nat)
  | openaiError (msg : String)
deriving DecidableEq, Repr

/-- Untyped JSON values, the result type of `json.loads`. -/
inductive Json where
  | null
  | bool (b : Bool)
  | num (q : Rat)
  | str (s : String)
  | arr (xs : List Json)
  | obj (fields : List (String × Json))

/-- `str.lower` (ASCII semantics, matching the titles handled by the pipeline). -/
def pyLower (s : String) : String :=
  String.mk (s.data.map Char.toLower)

/-- `needle` occurs as a contiguous sublist of `hay` (Python `needle in hay` on lists of chars). -/
def listHasSub (needle : List Char) : List Char → Bool
  | [] => needle.isEmpty
  | c :: t => needle.isPrefixOf (c :: t) || listHasSub needle t

/-- The Python substring test `needle in hay`. -/
def pyIn (needle hay : String) : Bool :=
  listHasSub needle.data hay.data

/-! ## Data model (`backend/models/data_models.py`)

`Node`, `Edge` and `ConstellationDetail` carry the fields the agent logic reads
or writes; pydantic bookkeeping fields (`created_at`, `updated_at`, positions,
`metadata`, `constellation_id`) play no role in the pipeline and are omitted.
The `str`-valued enums (`NodeType`, `SourceType`, `RelationshipType`) are kept
as the strings the agent compares and constructs. -/

structure Node where
  id : String
  title : String
  description : String
  impact_score : Rat
  node_type : String
  source : String
deriving DecidableEq, Repr

structure Edge where
  id : String
  source_id : String
  target_id : String
  weight : Rat
  relationship_type : String
  confidence_level : Rat
deriving DecidableEq, Repr

structure ConstellationDetail where
  name : String
  description : String
  nodes : List Node
  edges : List Edge
deriving DecidableEq, Repr

/-! ## Entity resolver (`ConversationAgent._find_node_by_title`,
`ConversationAgent._find_edge_between_nodes`) -/

/-- `_find_node_by_title`: case-insensitive exact pass over the nodes in snapshot
order, then a case-insensitive substring pass (query in title or title in query),
first match wins in each pass. -/
def find_node_by_title (constellation : ConstellationDetail) (title : String) : Option Node :=
  let title_lower := pyLower title
  match constellation.nodes.find? (fun node => pyLower node.title == title_lower) with
  | some node => some node
  | none =>
      constellation.nodes.find? (fun node =>
        pyIn title_lower (pyLower node.title) || pyIn (pyLower node.title) title_lower)

/-- `_find_edge_between_nodes`: one pass over the edges in snapshot order,
returning the first edge whose endpoints match the pair in either orientation. -/
def find_edge_between_nodes (constellation : ConstellationDetail)
    (source_id target_id : String) : Option Edge :=
  constellation.edges.find? (fun edge =>
    (edge.source_id == source_id && edge.target_id == target_id) ||
    (edge.source_id == target_id && edge.target_id == source_id))

/-! ## Intents and mutation records

`_parse_intent` hands `_execute_graph_modification` a parsed JSON dict
`{action, parameters, confidence, suggestions}`.  The synthesizer reads the
fields below through `dict.get(key, default)`; per the intent schema of the spec
(and the type annotations in the code) title-like parameters are strings,
`impact_score` a number and `changes` a nested dict, so the parameter dict is
rendered as one optional field per key, `Option.getD` standing for
`params.get(key, default)`. -/

structure IntentParams where
  title : Option String := none
  description : Option String := none
  node_type : Option String := none
  impact_score : Option Rat := none
  node_title : Option String := none
  changes : Option (List (String × Json)) := none
  source_title : Option String := none
  target_title : Option String := none
  relationship_type : Option String := none

structure Intent where
  action : Option String := none
  parameters : IntentParams := {}

/-- A mutation record: the `{"type": ..., "data": {...}}` dicts built by
`_execute_graph_modification`, one constructor per `type` with exactly the
fields the code places into `data`. -/
inductive Mutation where
  | add_node (title description node_type : String) (impact_score : Rat) (source : String)
  | remove_node (node_id : String)
  | modify_node (node_id : String) (changes : List (String × Json))
  | add_edge (source_id target_id : String) (relationship_type : String) (weight : Rat)
  | remove_edge (edge_id : String)

/-! ## Mutation synthesizer (`ConversationAgent._execute_graph_modification`) -/

/-- `_execute_graph_modification`: dispatch on `intent.get("action")`, resolve
referenced entities against the snapshot, and emit storage-ready mutation
records; unresolved references emit nothing. -/
def execute_graph_modification (intent : Intent) (constellation : ConstellationDetail) :
    List Mutation :=
  let params := intent.parameters
  match intent.action with
  | some "add_node" =>
      [Mutation.add_node (params.title.getD "New Factor") (params.description.getD "")
        (params.node_type.getD "factor") (params.impact_score.getD (1/2)) "user"]
  | some "remove_node" =>
      let node_title := params.node_title.getD ""
      match find_node_by_title constellation node_title with
      | some matching_node => [Mutation.remove_node matching_node.id]
      | none => []
  | some "modify_node" =>
      let node_title := params.node_title.getD ""
      let changes := params.changes.getD []
      match find_node_by_title constellation node_title with
      | some matching_node => [Mutation.modify_node matching_node.id changes]
      | none => []
  | some "add_edge" =>
      let source_title := params.source_title.getD ""
      let target_title := params.target_title.getD ""
      let relationship_type := params.relationship_type.getD "influences"
      match find_node_by_title constellation source_title,
            find_node_by_title constellation target_title with
      | some source_node, some target_node =>
          [Mutation.add_edge source_node.id target_node.id relationship_type (7/10)]
      | _, _ => []
  | some "remove_edge" =>
      let source_title := params.source_title.getD ""
      let target_title := params.target_title.getD ""
      match find_node_by_title constellation source_title,
            find_node_by_title constellation target_title with
      | some source_node, some target_node =>
          match find_edge_between_nodes constellation source_node.id target_node.id with
          | some matching_edge => [Mutation.remove_edge matching_edge.id]
          | none => []
      | _, _ => []
  | _ => []

/-! `_execute_graph_modification` is declared `async` but performs no `await`
of the model client; the monadic rendering below makes that visible.  `EffM`
logs every model/IO effect its computation performs; the translation of the
body of the synthesizer never invokes the logger. -/

/-- Effect monad: a state of logged model/IO effects. -/
abbrev EffM := StateM (List String)

/-- The body of `_execute_graph_modification` in the effect monad, line for
line the same dispatch as `execute_graph_modification`; no branch performs an
effect. -/
def execute_graph_modificationM (intent : Intent) (constellation : ConstellationDetail) :
    EffM (List Mutation) := do
  let params := intent.parameters
  match intent.action with
  | some "add_node" =>
      pure [Mutation.add_node (params.title.getD "New Factor") (params.description.getD "")
        (params.node_type.getD "factor") (params.impact_score.getD (1/2)) "user"]
  | some "remove_node" =>
      let node_title := params.node_title.getD ""
      match find_node_by_title constellation node_title with
      | some matching_node => pure [Mutation.remove_node matching_node.id]
      | none => pure []
  | some "modify_node" =>
      let node_title := params.node_title.getD ""
      let changes := params.changes.getD []
      match find_node_by_title constellation node_title with
      | some matching_node => pure [Mutation.modify_node matching_node.id changes]
      | none => pure []
  | some "add_edge" =>
      let source_title := params.source_title.getD ""
      let target_title := params.target_title.getD ""
      let relationship_type := params.relationship_type.getD "influences"
      match find_node_by_title constellation source_title,
            find_node_by_title constellation target_title with
      | some source_node, some target_node =>
          pure [Mutation.add_edge source_node.id target_node.id relationship_type (7/10)]
      | _, _ => pure []
  | some "remove_edge" =>
      let source_title := params.source_title.getD ""
      let target_title := params.target_title.getD ""
      match find_node_by_title constellation source_title,
            find_node_by_title constellation target_title with
      | some source_node, some target_node =>
          match find_edge_between_nodes constellation source_node.id target_node.id with
          | some matching_edge => pure [Mutation.remove_edge matching_edge.id]
          | none => pure []
      | _, _ => pure []
  | _ => pure []

/-! ## Intent parser (`ConversationAgent._parse_intent`)

The try-block performs the model call (`self.client.chat.completions.create`,
yielding the response text or raising) and then `json.loads` on that text.
The call outcome is the `callResult` argument; `loads` embeds `json.loads`
(parameterised, since the JSON grammar itself is a library concern — the agent
only cares whether it raises).  Any exception in the try-block lands in the
`except` clause, which returns the fixed fallback dict. -/

/-- The fallback intent dict returned by the `except` clause of `_parse_intent`. -/
def fallbackIntent : Json :=
  .obj [("action", .str "general"),
        ("parameters", .obj []),
        ("confidence", .num (1/10)),
        ("suggestions", .arr [.str "Could you please rephrase your request?"])]

/-- `_parse_intent`: return the JSON parsed from the model response, or the
fallback dict when the call or the parse raises. -/
def parse_intent (callResult : Except PyErr String)
    (loads : String → Except PyErr Json) : Json :=
  match callResult with
  | .error _ => fallbackIntent
  | .ok content =>
      match loads content with
      | .error _ => fallbackIntent
      | .ok intent => intent

/-! ## Response generator (`ConversationAgent._generate_response`)

The message, snapshot and intent only shape the prompt of the single model
call, whose outcome is `callResult`; the deterministic fallback depends only
on the synthesized mutation list. -/

/-- `_generate_response`: the reply of the model on success; on any exception a
deterministic fallback keyed on whether any modifications were made. -/
def generate_response (callResult : Except PyErr String)
    (modifications : List Mutation) : String :=
  match callResult with
  | .ok content => content
  | .error _ =>
      if modifications.length ≠ 0 then
        "I\x27ve made " ++ toString modifications.length ++ " changes to your graph as requested."
      else
        "I understand your message. How else can I help you with your goal?"

/-! ## Model gateway (`backend/llm_client.py`)

`LLMClient.chat_completion` dispatches on the statically configured provider.
The Ollama backend posts to `/v1/chat/completions` via httpx with no retry
logic: the transport oracle is consulted exactly once, at attempt 0.
`raise_for_status` raises `httpx.HTTPStatusError` for any non-2xx status;
timeouts and refused connections raise the corresponding httpx exceptions.
None of these is converted: whatever the transport raises propagates to the
caller as-is. -/

/-- Outcome of one httpx POST attempt: a timeout, a refused connection, or a
response with a status code and a body (`none` = body that is not JSON, so
`resp.json()` raises). -/
inductive TransportOutcome where
  | timeout
  | connectionRefused
  | response (status : Nat) (body : Option Json)

/-- Outcome of one OpenAI SDK call: an SDK exception or a response content. -/
inductive OpenAIOutcome where
  | failure (msg : String)
  | success (content : String)

/-- `data["choices"][0]["message"]["content"]` on a decoded JSON body; shape
mismatches raise (key/index/type errors). -/
def extractContent (data : Json) : Except PyErr String :=
  match data with
  | .obj fields =>
      match fields.lookup "choices" with
      | some (.arr choices) =>
          match choices.head? with
          | some (.obj choice0) =>
              match choice0.lookup "message" with
              | some (.obj message) =>
                  match message.lookup "content" with
                  | some (.str content) => .ok content
                  | some _ => .error .typeError
                  | none => .error .keyError
              | some _ => .error .typeError
              | none => .error .keyError
          | some _ => .error .typeError
          | none => .error .indexError
      | some _ => .error .typeError
      | none => .error .keyError
  | _ => .error .typeError

/-- `LLMClient._ollama_chat`: one POST (attempt 0 of the transport oracle),
`raise_for_status`, `resp.json()`, then content extraction.  Every failure is
surfaced as the backend-specific exception, unconverted. -/
def ollama_chat (transport : Nat → TransportOutcome) : Except PyErr String :=
  match transport 0 with
  | .timeout => .error .httpxTimeout
  | .connectionRefused => .error .httpxConnect
  | .response status body =>
      if 200 ≤ status ∧ status < 300 then
        match body with
        | none => .error .jsonDecodeError
        | some data => extractContent data
      else .error (.httpxStatus status)

/-- `LLMClient._openai_chat`: one SDK call (attempt 0); SDK exceptions
propagate. -/
def openai_chat (transport : Nat → OpenAIOutcome) : Except PyErr String :=
  match transport 0 with
  | .failure msg => .error (.openaiError msg)
  | .success content => .ok content

/-- `LLMClient.chat_completion`: provider dispatch fixed at construction time
(`provider` string, and whether the OpenAI client was constructed). -/
def chat_completion (provider : String) (openaiClientAvailable : Bool)
    (ollamaTransport : Nat → TransportOutcome)
    (openaiTransport : Nat → OpenAIOutcome) : Except PyErr String :=
  if provider == "ollama" then ollama_chat ollamaTransport
  else if provider == "openai" && openaiClientAvailable then openai_chat openaiTransport
  else ollama_chat ollamaTransport

/-! ## Goal evaluator (`GoalRefinementAgent.evaluate_goal`)

`evaluate_goal` calls the gateway, strips code fences, parses JSON and builds
a `GoalEvaluation`.  The pydantic model `GoalEvaluation` declared in
`backend/models/data_models.py` has the six required fields below; constructing
it with keyword arguments (`GoalEvaluation(**kwargs)`) validates that every
required field is present with the declared type and bounds, raising
`ValidationError` otherwise (extra keyword arguments are ignored by default). -/

/-- `GoalEvaluation` (`backend/models/data_models.py`): required fields only,
all of them. -/
structure GoalEvaluation where
  specificity_score : Rat
  measurability_score : Rat
  time_boundedness_score : Rat
  overall_score : Rat
  feedback : String
  areas_for_improvement : List String
deriving DecidableEq, Repr

/-- Read a JSON list of strings (`List[str]` coercion), or fail. -/
def jStrList : List Json → Option (List String)
  | [] => some []
  | .str s :: rest => (jStrList rest).map (fun l => s :: l)
  | _ => none

/-- Look a numeric field up in a keyword-argument dict. -/
def kwNum (kwargs : List (String × Json)) (key : String) : Option Rat :=
  match kwargs.lookup key with
  | some (.num q) => some q
  | _ => none

/-- Look a string field up in a keyword-argument dict. -/
def kwStr (kwargs : List (String × Json)) (key : String) : Option String :=
  match kwargs.lookup key with
  | some (.str s) => some s
  | _ => none

/-- Pydantic construction `GoalEvaluation(**kwargs)`: succeeds when every
required field is present with its declared type and the score bounds hold,
raises `ValidationError` otherwise. -/
def mkGoalEvaluation (kwargs : List (String × Json)) : Except PyErr GoalEvaluation :=
  match kwNum kwargs "specificity_score", kwNum kwargs "measurability_score",
        kwNum kwargs "time_boundedness_score", kwNum kwargs "overall_score",
        kwStr kwargs "feedback",
        (match kwargs.lookup "areas_for_improvement" with
         | some (.arr xs) => jStrList xs
         | _ => none) with
  | some sp, some me, some ti, some ov, some fb, some ar =>
      if 0 ≤ sp ∧ sp ≤ 1 ∧ 0 ≤ me ∧ me ≤ 1 ∧ 0 ≤ ti ∧ ti ≤ 1 ∧ 0 ≤ ov ∧ ov ≤ 1 then
        .ok ⟨sp, me, ti, ov, fb, ar⟩
      else .error .validationError
  | _, _, _, _, _, _ => .error .validationError

/-- One per-criterion fallback dict
`{"score": 1, "reasoning": "Evaluation failed", "suggestion": ""}`. -/
def criterionFallback : Json :=
  .obj [("score", .num 1), ("reasoning", .str "Evaluation failed"), ("suggestion", .str "")]

/-- The keyword arguments of the fallback constructor call in the `except`
clause of `evaluate_goal`: five per-criterion dicts, keyed by criterion name. -/
def goalEvalFallbackKwargs : List (String × Json) :=
  [("specificity", criterionFallback),
   ("measurability", criterionFallback),
   ("time_boundedness", criterionFallback),
   ("personal_relevance", criterionFallback),
   ("achievability", criterionFallback)]

/-- The try-block of `evaluate_goal`: gateway call, fence stripping
(`content.replace(" ``` json", " ``` "); content.split(" ``` ")[1]`, spaces
added here to render the backtick fences in this comment), `json.loads`, then
`GoalEvaluation(**evaluation_data)`. -/
def evaluate_goal_try (callResult : Except PyErr String)
    (loads : String → Except PyErr Json) : Except PyErr GoalEvaluation := do
  let content ← callResult
  let content ←
    if pyIn "```" content then
      let replaced := content.replace "```json" "```"
      match (replaced.splitOn "```").get? 1 with
      | some piece => Except.ok piece
      | none => Except.error PyErr.indexError
    else Except.ok content
  match ← loads content with
  | .obj fields => mkGoalEvaluation fields
  | _ => .error .typeError

/-- `evaluate_goal`: run the try-block; on any exception run the `except`
clause, which itself constructs `GoalEvaluation(**goalEvalFallbackKwargs)` —
and an exception raised inside the `except` clause propagates to the caller. -/
def evaluate_goal (callResult : Except PyErr String)
    (loads : String → Except PyErr Json) : Except PyErr GoalEvaluation :=
  match evaluate_goal_try callResult loads with
  | .ok evaluation => .ok evaluation
  | .error _ => mkGoalEvaluation goalEvalFallbackKwargs

/-! ## Concrete snapshots used to instantiate the theorems -/

/-- A node titled `Stress Management`. -/
def nStressMgmt : Node := ⟨"n1", "Stress Management", "", 0, "factor", "user"⟩

/-- A node titled `Stress`. -/
def nStress : Node := ⟨"n2", "Stress", "", 0, "factor", "user"⟩

/-- Snapshot with nodes `["Stress Management", "Stress"]`, in that order. -/
def cDemo : ConstellationDetail := ⟨"Wellbeing", "", [nStressMgmt, nStress], []⟩

/-- Snapshot with the single node `Stress Management`. -/
def cMgmtOnly : ConstellationDetail := ⟨"Wellbeing", "", [nStressMgmt], []⟩

/-- Edge from `B` to `A` (the reversed orientation), first in snapshot order. -/
def eRev : Edge := ⟨"e1", "B", "A", 1, "influences", 1⟩

/-- Edge from `A` to `B` (the directional orientation), second in snapshot order. -/
def eFwd : Edge := ⟨"e2", "A", "B", 1, "influences", 1⟩

/-- Snapshot whose edges are `[eRev, eFwd]`, in that order. -/
def cEdges : ConstellationDetail := ⟨"Wellbeing", "", [], [eRev, eFwd]⟩

/-- The unordered endpoint-match predicate of the edge resolver, as a
proposition. -/
def edgeMatchesPair (e : Edge) (source_id target_id : String) : Prop :=
  (e.source_id = source_id ∧ e.target_id = target_id) ∨
  (e.source_id = target_id ∧ e.target_id = source_id)

instance (e : Edge) (s t : String) : Decidable (edgeMatchesPair e s t) := by
  unfold edgeMatchesPair; infer_instance

/-! ## Helper lemmas -/

theorem listHasSub_nil (hay : List Char) : listHasSub [] hay = true := by
  cases hay <;> simp [listHasSub, List.isPrefixOf]

theorem pyIn_empty (s : String) : pyIn "" s = true :=
  listHasSub_nil s.data

theorem pyLower_ne_empty {s : String} (h : s ≠ "") : pyLower s ≠ "" := by
  intro hc
  apply h
  have hd : (pyLower s).data = ([] : List Char) := by rw [hc]
  simp only [pyLower, List.map_eq_nil_iff] at hd
  cases s with
  | mk data =>
      have hd2 : data = [] := hd
      subst hd2
      rfl

theorem find_node_by_title_mem {c : ConstellationDetail} {ttl : String} {n : Node}
    (h : find_node_by_title c ttl = some n) : n ∈ c.nodes := by
  simp only [find_node_by_title] at h
  split at h
  · cases h
    exact List.mem_of_find?_eq_some (by assumption)
  · exact List.mem_of_find?_eq_some h

/-! ## Claim theorems -/

/-- C1 (code bug evidence): whenever the try-block of `evaluate_goal` fails —
model call failure, unparsable output, or schema-validation failure — the
`except` clause constructs `GoalEvaluation(**goalEvalFallbackKwargs)`, whose
keyword arguments are the five criterion dicts while the pydantic model
requires `specificity_score`, `measurability_score`, `time_boundedness_score`,
`overall_score`, `feedback` and `areas_for_improvement`; that construction
raises `ValidationError`, which propagates to the caller instead of the
claimed five-criterion fallback value being returned. -/
theorem evaluate_goal_fallback_construction_raises
    (callResult : Except PyErr String) (loads : String → Except PyErr Json)
    (e : PyErr) (h : evaluate_goal_try callResult loads = .error e) :
    evaluate_goal callResult loads = .error PyErr.validationError := by
  unfold evaluate_goal
  rw [h]
  rfl

theorem evaluate_goal_fallback_construction_raises_witness :
    evaluate_goal (.error PyErr.httpxTimeout) (fun _ => .error PyErr.jsonDecodeError) =
      .error PyErr.validationError :=
  evaluate_goal_fallback_construction_raises (.error PyErr.httpxTimeout)
    (fun _ => .error PyErr.jsonDecodeError) PyErr.httpxTimeout rfl

/-- C2: for every model-call outcome and parse function, if the call raised or
the returned text does not parse, `_parse_intent` returns exactly the fallback
intent dict (action `general`, empty parameters, confidence `0.1`, a single
rephrase suggestion); no exception propagates. -/
theorem parse_intent_fallback (callResult : Except PyErr String)
    (loads : String → Except PyErr Json)
    (h : ∀ s, callResult = .ok s → ∃ e, loads s = .error e) :
    parse_intent callResult loads = fallbackIntent := by
  cases callResult with
  | error e => rfl
  | ok s =>
      obtain ⟨e, he⟩ := h s rfl
      simp [parse_intent, he]

theorem parse_intent_fallback_witness :
    parse_intent (.error PyErr.httpxTimeout) (fun _ => .error PyErr.jsonDecodeError) =
      fallbackIntent :=
  parse_intent_fallback (.error PyErr.httpxTimeout) (fun _ => .error PyErr.jsonDecodeError)
    (fun _ hs => nomatch hs)

/-- C9: on gateway failure `_generate_response` returns the deterministic
fallback text — the templated count string when the mutation list is
non-empty, the generic acknowledgement otherwise — independent of which
exception occurred, and it always returns a response string. -/
theorem generate_response_fallback (e : PyErr) (modifications : List Mutation) :
    generate_response (.error e) modifications =
      (if modifications.length ≠ 0 then
        "I\x27ve made " ++ toString modifications.length ++
          " changes to your graph as requested."
      else
        "I understand your message. How else can I help you with your goal?") := rfl

/-- C3: for every `add_edge` intent and snapshot, if either endpoint title
fails to resolve the synthesizer emits nothing; if both resolve it emits
exactly one `add_edge` mutation, with `relationship_type` defaulting to
`influences` when unspecified and weight `0.7`. -/
theorem add_edge_requires_both_endpoints (params : IntentParams) (c : ConstellationDetail) :
    (find_node_by_title c (params.source_title.getD "") = none ∨
     find_node_by_title c (params.target_title.getD "") = none →
       execute_graph_modification ⟨some "add_edge", params⟩ c = []) ∧
    (∀ s t, find_node_by_title c (params.source_title.getD "") = some s →
       find_node_by_title c (params.target_title.getD "") = some t →
       execute_graph_modification ⟨some "add_edge", params⟩ c =
         [Mutation.add_edge s.id t.id (params.relationship_type.getD "influences") (7/10)]) := by
  constructor
  · intro h
    cases hs : find_node_by_title c (params.source_title.getD "") with
    | none => simp [execute_graph_modification, hs]
    | some s =>
        cases ht : find_node_by_title c (params.target_title.getD "") with
        | none => simp [execute_graph_modification, hs, ht]
        | some t =>
            rcases h with h | h
            · rw [hs] at h; exact absurd h (by simp)
            · rw [ht] at h; exact absurd h (by simp)
  · intro s t hs ht
    simp [execute_graph_modification, hs, ht]

theorem add_edge_requires_both_endpoints_witness :
    execute_graph_modification
        ⟨some "add_edge", { source_title := some "stress", target_title := some "management" }⟩
        cDemo =
      [Mutation.add_edge "n2" "n1" "influences" (7/10)] :=
  (add_edge_requires_both_endpoints
      { source_title := some "stress", target_title := some "management" } cDemo).2
    nStress nStressMgmt rfl rfl

/-- C4: node resolution returns the first case-insensitive exact title match in
snapshot order; only when no exact match exists does it fall back to the first
case-insensitive substring match (in either direction); in particular
resolving `stress` against `["Stress Management", "Stress"]` returns the node
titled `Stress`. -/
theorem node_resolution_exact_before_substring (c : ConstellationDetail) (query : String) :
    (∀ n, c.nodes.find? (fun m => pyLower m.title == pyLower query) = some n →
        find_node_by_title c query = some n) ∧
    (c.nodes.find? (fun m => pyLower m.title == pyLower query) = none →
        find_node_by_title c query =
          c.nodes.find? (fun m =>
            pyIn (pyLower query) (pyLower m.title) || pyIn (pyLower m.title) (pyLower query))) ∧
    find_node_by_title cDemo "stress" = some nStress := by
  refine ⟨?_, ?_, rfl⟩
  · intro n h
    simp [find_node_by_title, h]
  · intro h
    simp [find_node_by_title, h]

theorem node_resolution_exact_before_substring_witness :
    find_node_by_title cMgmtOnly "management" = some nStressMgmt := by
  have h := (node_resolution_exact_before_substring cMgmtOnly "management").2.1 rfl
  rw [h]
  rfl

/-- C8: the mutation synthesizer is pure and deterministic — its monadic
rendering leaves the effect log untouched (no I/O, no model call) and its
value is a function of the intent and the snapshot alone, so two calls on
identical inputs return identical mutation lists in identical order. -/
theorem synthesize_pure_no_effects (intent : Intent) (c : ConstellationDetail)
    (log : List String) :
    (execute_graph_modificationM intent c).run log = (execute_graph_modification intent c, log) := by
  unfold execute_graph_modificationM execute_graph_modification
  split <;> dsimp only <;> (try split) <;> (try split) <;> rfl

/-- C5 counterexample: in a snapshot whose edge list holds the reversed pair
`B→A` before the directional pair `A→B`, resolving `(A, B)` returns the
reversed edge even though a directional match is present — the resolver gives
no preference to the directional orientation. -/
theorem edge_resolution_directional_preference_false :
    find_edge_between_nodes cEdges "A" "B" = some eRev ∧
    eRev.source_id = "B" ∧ eRev.target_id = "A" ∧
    eFwd ∈ cEdges.edges ∧ eFwd.source_id = "A" ∧ eFwd.target_id = "B" ∧
    eRev ≠ eFwd := by
  refine ⟨rfl, rfl, rfl, ?_, rfl, rfl, ?_⟩
  · exact List.mem_cons_of_mem _ (List.mem_singleton.mpr rfl)
  · intro h
    exact absurd (congrArg Edge.id h) (by decide)

/-- C5 (amended): edge resolution performs one pass over the edges in snapshot
order and returns the first edge whose endpoints match the queried pair in
either orientation; a reversed-orientation edge earlier in the list wins over
a directional match later, and `none` is returned exactly when no edge matches
in either orientation. -/
theorem edge_resolution_first_match_either_orientation
    (c : ConstellationDetail) (source_id target_id : String) :
    (∀ pre e post, c.edges = pre ++ e :: post →
        edgeMatchesPair e source_id target_id →
        (∀ e2 ∈ pre, ¬ edgeMatchesPair e2 source_id target_id) →
        find_edge_between_nodes c source_id target_id = some e) ∧
    ((∀ e ∈ c.edges, ¬ edgeMatchesPair e source_id target_id) →
        find_edge_between_nodes c source_id target_id = none) := by
  have hb : ∀ e : Edge,
      ((e.source_id == source_id && e.target_id == target_id) ||
       (e.source_id == target_id && e.target_id == source_id)) = true ↔
      edgeMatchesPair e source_id target_id := by
    intro e
    simp [edgeMatchesPair]
  constructor
  · intro pre e post hsplit hmatch hpre
    unfold find_edge_between_nodes
    rw [hsplit, List.find?_append]
    have h1 : pre.find? (fun edge =>
        (edge.source_id == source_id && edge.target_id == target_id) ||
        (edge.source_id == target_id && edge.target_id == source_id)) = none := by
      rw [List.find?_eq_none]
      intro x hx hx2
      exact hpre x hx ((hb x).mp hx2)
    rw [h1, Option.none_or]
    exact List.find?_cons_of_pos post ((hb e).mpr hmatch)
  · intro hall
    unfold find_edge_between_nodes
    rw [List.find?_eq_none]
    intro x hx hx2
    exact hall x hx ((hb x).mp hx2)

theorem edge_resolution_first_match_either_orientation_witness :
    find_edge_between_nodes cEdges "A" "B" = some eRev :=
  (edge_resolution_first_match_either_orientation cEdges "A" "B").1 [] eRev [eFwd] rfl
    (Or.inr ⟨rfl, rfl⟩) (by simp)

/-- C6 counterexample: two transport failures of the Ollama backend (a timeout
and a 500 status) surface through `chat_completion` as two distinct
backend-specific exceptions, not as one uniform failure value. -/
theorem gateway_failure_not_uniform :
    chat_completion "ollama" false (fun _ => TransportOutcome.timeout)
        (fun _ => OpenAIOutcome.success "") = .error PyErr.httpxTimeout ∧
    chat_completion "ollama" false (fun _ => TransportOutcome.response 500 none)
        (fun _ => OpenAIOutcome.success "") = .error (PyErr.httpxStatus 500) ∧
    PyErr.httpxTimeout ≠ PyErr.httpxStatus 500 :=
  ⟨rfl, rfl, by decide⟩

/-- C6 (amended): the gateway performs no retry — its result depends only on
the first transport attempt — and every transport failure propagates to the
caller as the corresponding backend-specific exception (httpx timeout, httpx
connect error, httpx status error carrying the status code, or the OpenAI SDK
exception), with no conversion to a uniform failure value. -/
theorem gateway_propagates_backend_specific_errors
    (provider : String) (avail : Bool)
    (t t2 : Nat → TransportOutcome) (oa oa2 : Nat → OpenAIOutcome) :
    (t 0 = t2 0 → oa 0 = oa2 0 →
        chat_completion provider avail t oa = chat_completion provider avail t2 oa2) ∧
    (chat_completion "ollama" avail t oa = ollama_chat t) ∧
    (t 0 = TransportOutcome.timeout → ollama_chat t = .error PyErr.httpxTimeout) ∧
    (t 0 = TransportOutcome.connectionRefused → ollama_chat t = .error PyErr.httpxConnect) ∧
    (∀ status body, t 0 = TransportOutcome.response status body →
        ¬(200 ≤ status ∧ status < 300) →
        ollama_chat t = .error (PyErr.httpxStatus status)) ∧
    (∀ msg, oa 0 = OpenAIOutcome.failure msg →
        openai_chat oa = .error (PyErr.openaiError msg)) := by
  refine ⟨?_, rfl, ?_, ?_, ?_, ?_⟩
  · intro ht hoa
    unfold chat_completion ollama_chat openai_chat
    rw [ht, hoa]
  · intro h
    unfold ollama_chat
    rw [h]
  · intro h
    unfold ollama_chat
    rw [h]
  · intro status body h hbad
    unfold ollama_chat
    rw [h]
    dsimp only
    rw [if_neg hbad]
  · intro msg h
    unfold openai_chat
    rw [h]

theorem gateway_propagates_backend_specific_errors_witness :
    ollama_chat (fun _ => TransportOutcome.timeout) = .error PyErr.httpxTimeout :=
  (gateway_propagates_backend_specific_errors "ollama" false
      (fun _ => TransportOutcome.timeout) (fun _ => TransportOutcome.timeout)
      (fun _ => OpenAIOutcome.success "") (fun _ => OpenAIOutcome.success "")).2.2.1 rfl

/-- C7: every `add_edge` mutation record emitted by the synthesizer carries a
`source_id` and a `target_id` that are ids of nodes present in the snapshot it
was produced from. -/
theorem add_edge_endpoints_in_snapshot (intent : Intent) (c : ConstellationDetail)
    (source_id target_id relationship_type : String) (weight : Rat)
    (h : Mutation.add_edge source_id target_id relationship_type weight ∈
          execute_graph_modification intent c) :
    (∃ n ∈ c.nodes, n.id = source_id) ∧ (∃ n ∈ c.nodes, n.id = target_id) := by
  unfold execute_graph_modification at h
  dsimp only at h
  split at h
  · simp at h
  · split at h <;> simp at h
  · split at h <;> simp at h
  · split at h
    · rename_i source_node target_node hs ht
      simp only [List.mem_singleton, Mutation.add_edge.injEq] at h
      obtain ⟨h1, h2, -, -⟩ := h
      exact ⟨⟨source_node, find_node_by_title_mem hs, h1.symm⟩,
             ⟨target_node, find_node_by_title_mem ht, h2.symm⟩⟩
    · simp at h
  · split at h
    · split at h <;> simp at h
    · simp at h
  · simp at h

/-- C10: against a non-empty snapshot (whose node titles are non-empty, as the
data model requires), the empty query string fails the exact pass but succeeds
on the substring pass at the very first node, so a `remove_node` or
`modify_node` intent whose `node_title` parameter is missing or empty emits a
mutation targeting the first node of the snapshot instead of being a no-op. -/
theorem empty_node_title_targets_first_node (c : ConstellationDetail) (n : Node)
    (hhead : c.nodes.head? = some n)
    (htitles : ∀ m ∈ c.nodes, m.title ≠ "")
    (params : IntentParams) (hnt : params.node_title.getD "" = "") :
    find_node_by_title c "" = some n ∧
    execute_graph_modification ⟨some "remove_node", params⟩ c =
      [Mutation.remove_node n.id] ∧
    execute_graph_modification ⟨some "modify_node", params⟩ c =
      [Mutation.modify_node n.id (params.changes.getD [])] := by
  have hexact : c.nodes.find? (fun m => pyLower m.title == pyLower "") = none := by
    rw [List.find?_eq_none]
    intro m hm h
    exact pyLower_ne_empty (htitles m hm) (eq_of_beq h)
  have hsub : c.nodes.find? (fun m =>
      pyIn (pyLower "") (pyLower m.title) || pyIn (pyLower m.title) (pyLower "")) = some n := by
    cases hl : c.nodes with
    | nil => rw [hl] at hhead; cases hhead
    | cons a l =>
        rw [hl] at hhead
        have han : a = n := by simpa using hhead
        subst han
        have hp : (pyIn (pyLower "") (pyLower a.title) ||
            pyIn (pyLower a.title) (pyLower "")) = true := by
          simp only [Bool.or_eq_true]
          exact Or.inl (pyIn_empty (pyLower a.title))
        exact List.find?_cons_of_pos l hp
  have hfind : find_node_by_title c "" = some n := by
    simp only [find_node_by_title]
    rw [hexact]
    simpa using hsub
  refine ⟨hfind, ?_, ?_⟩ <;> simp [execute_graph_modification, hnt, hfind]

theorem empty_node_title_targets_first_node_witness :
    find_node_by_title cDemo "" = some nStressMgmt ∧
    execute_graph_modification ⟨some "remove_node", {}⟩ cDemo =
      [Mutation.remove_node "n1"] ∧
    execute_graph_modification ⟨some "modify_node", {}⟩ cDemo =
      [Mutation.modify_node "n1" []] :=
  empty_node_title_targets_first_node cDemo nStressMgmt rfl (by decide) {} rfl

theorem add_edge_endpoints_in_snapshot_witness :
    (∃ n ∈ cDemo.nodes, n.id = "n2") ∧ (∃ n ∈ cDemo.nodes, n.id = "n1") := by
  have h : Mutation.add_edge "n2" "n1" "influences" (7/10) ∈
      execute_graph_modification
        ⟨some "add_edge", { source_title := some "stress", target_title := some "management" }⟩
        cDemo := by
    rw [show execute_graph_modification
        ⟨some "add_edge", { source_title := some "stress", target_title := some "management" }⟩
        cDemo = [Mutation.add_edge "n2" "n1" "influences" (7/10)] from rfl]
    exact List.mem_singleton.mpr rfl
  exact add_edge_endpoints_in_snapshot _ cDemo "n2" "n1" "influences" (7/10) h
